import Mathlib

/-!
Verification development for the `actableai-lib` intervention-effect pipeline
(`actableai/intervention/model.py`), the Bayesian-regression task
(`actableai/tasks/bayesian_regression.py`) and the preprocessing utilities
(`actableai/utils/preprocessing.py`), as a shallow embedding in Lean 4.

Machine floats in the source are modelled by exact rationals (ℚ); the
extended values produced by `scipy.special.logit` (which reaches ±infinity at
probability 0 and 1) are modelled by an explicit extended-value type.
-/

namespace ActableAI

/-! ## Column model and the feature classifier -/

/-- The three column kinds the feature classifier distinguishes. -/
inductive ColKind
  | numeric
  | integer
  | category
  deriving DecidableEq, Repr

/-- A dataframe column as the intervention model consumes it: its inferred
kind together with its cell values (strings; treatment columns are used
through `.unique()` only, so the carrier is immaterial). -/
structure Column where
  kind : ColKind
  values : List String
  deriving DecidableEq, Repr

/-- Modelled from the spec: the Feature Classifier `get_type_special_no_ag`
(imported from `actableai.utils`, not under `src/`) "returns one of
\x7bnumeric, integer, category\x7d using type-inspection heuristics".
It therefore never returns the string "categorical". -/
def get_type_special_no_ag (c : Column) : String :=
  match c.kind with
  | .numeric => "numeric"
  | .integer => "integer"
  | .category => "category"

/-- Embedding of `len(T[col].unique())`: the number of distinct values of a column. -/
def Column.nunique (c : Column) : Nat :=
  c.values.dedup.length

/-- Number of rows of the column (`len(T)`). -/
def Column.nrows (c : Column) : Nat :=
  c.values.length

/-! ## Predictor configuration (`AAIInterventionEffectPredictor.__init__`) -/

/-- The configuration fields of `AAIInterventionEffectPredictor` that the
estimator-builder and model factories read.  `causal_cv` already reflects the
constructor's `1 if causal_cv is None else causal_cv`. -/
structure InterventionConfig where
  common_causes : Option (List String)
  cate_alpha : Option ℚ
  causal_cv : Nat
  deriving DecidableEq, Repr

/-- Python truthiness of `self.common_causes and len(self.common_causes) != 0`:
true exactly when the optional list is present and non-empty. -/
def commonCausesTruthy (cc : Option (List String)) : Bool :=
  match cc with
  | none => false
  | some l => !l.isEmpty

/-! ## Causal Estimator Builder (`_generate_dml_model`, model.py lines 178-208) -/

/-- The estimator chosen by `_generate_dml_model`, with the configuration
fields it passes on: whether a `DMLFeaturizer` is supplied, the CV fold
count and the `discrete_treatment` flag (`LinearDML` additionally hard-codes
`linear_first_stages=False`). -/
inductive DMLModel
  | linearDML (featurizer : Bool) (cv : Nat) (linear_first_stages : Bool)
      (discrete_treatment : Bool)
  | nonParamDML (featurizer : Bool) (cv : Nat) (discrete_treatment : Bool)
  deriving DecidableEq, Repr

/-- Shallow embedding of `_generate_dml_model(self, model_t, model_y,
model_final, X, T)`.  `hasX` models `X is not None`.  The branch condition is
the source's
`(self.common_causes and len(self.common_causes) != 0) or
 self.cate_alpha is not None or
 (T_type == "categorical" and len(T[...].unique()) > 2)`
where `T_type = get_type_special_no_ag(T[self.current_intervention_column])`. -/
def generate_dml_model (cfg : InterventionConfig) (hasX : Bool) (T : Column) :
    DMLModel :=
  let T_type := get_type_special_no_ag T
  if commonCausesTruthy cfg.common_causes
      || cfg.cate_alpha.isSome
      || (T_type == "categorical" && decide (T.nunique > 2)) then
    DMLModel.linearDML (commonCausesTruthy cfg.common_causes) cfg.causal_cv
      false (T_type == "categorical")
  else
    DMLModel.nonParamDML hasX cfg.causal_cv (T_type == "categorical")

/-- The decision rule as the claim words it: linear iff the common-causes
list is non-empty, or `cate_alpha` was supplied, or the treatment column is
classified categorical with more than two distinct values. -/
def specSelectsLinear (cfg : InterventionConfig) (T : Column) : Bool :=
  commonCausesTruthy cfg.common_causes
    || cfg.cate_alpha.isSome
    || (decide (T.kind = ColKind.category) && decide (T.nunique > 2))

/-- Whether the built estimator is the linear double-ML estimator. -/
def DMLModel.isLinear : DMLModel → Bool
  | .linearDML _ _ _ _ => true
  | .nonParamDML _ _ _ => false

/-! ## Treatment-model factory (`_generate_model_t`, model.py lines 58-99) -/

/-- The parts of the treatment-model wrapper fixed by `_generate_model_t`:
the `TabularPredictor` problem type and the `holdout_frac` handed to
`SKLearnTabularWrapper`. -/
structure ModelTSpec where
  problem_type : String
  holdout_frac : Option ℚ
  deriving DecidableEq, Repr

/-- Shallow embedding of `_generate_model_t(self, X, T)` restricted to the
current-intervention column `T[self.current_intervention_column]` (the
source's `num_cols` membership test for that column is exactly a test on its
own classified kind).  Problem type is `"regression"` iff the column is
numeric or integer, else `"multiclass"`; in the multiclass case
`holdout_frac = len(T[col].unique()) / len(T)`, otherwise it stays `None`. -/
def generate_model_t (T : Column) : ModelTSpec :=
  let model_t_problem_type :=
    if T.kind = ColKind.numeric ∨ T.kind = ColKind.integer then "regression"
    else "multiclass"
  let model_t_holdout_frac : Option ℚ :=
    if model_t_problem_type = "multiclass" then
      some ((T.nunique : ℚ) / (T.nrows : ℚ))
    else none
  ⟨model_t_problem_type, model_t_holdout_frac⟩

/-! ## Outcome and final-stage model factories
(`_generate_model_y` lines 101-140, `_generate_model_final` lines 142-176) -/

/-- A built nuisance/final model: either the single-output
`SKLearnTabularWrapper` around a `TabularPredictor` (with its label and
problem type) or the `SKLearnMultilabelWrapper` around a
`MultilabelPredictor` (with its label list and per-label problem types). -/
inductive WrapperModel
  | tabularWrap (label : String) (problem_type : String)
  | multilabelWrap (labels : List String) (problem_types : List String)
  deriving DecidableEq, Repr

/-- Shallow embedding of `_generate_model_y(self, X, Y)`: one outcome column
gives a tabular regression wrapper labelled `"y"`, several give a multilabel
wrapper with one `"regression"` problem type per column. -/
def generate_model_y (Ycols : List String) : WrapperModel :=
  if Ycols.length = 1 then
    WrapperModel.tabularWrap "y" "regression"
  else
    WrapperModel.multilabelWrap Ycols (Ycols.map fun _ => "regression")

/-- Shallow embedding of `_generate_model_final(self, T, Y)`: the branch is
`if len(Y.columns) != 1`, giving the tabular wrapper labelled `"y_res"` when
the outcome has several columns and the multilabel wrapper when it has
exactly one. -/
def generate_model_final (Ycols : List String) : WrapperModel :=
  if Ycols.length ≠ 1 then
    WrapperModel.tabularWrap "y_res" "regression"
  else
    WrapperModel.multilabelWrap Ycols (Ycols.map fun _ => "regression")

/-- Whether a built model is the multilabel wrapper. -/
def WrapperModel.isMultilabel : WrapperModel → Bool
  | .tabularWrap _ _ => false
  | .multilabelWrap _ _ => true

/-! ## Percentage parsing (`PercentageTransformer.transform`,
preprocessing.py lines 26-31)

The regex is `^[^\S\r\n]*(\d+(?:\.\d+)?)[^\S\r\n]*%[^\S\r\n]*$`:
optional horizontal whitespace, one or more digits with an optional
`.digits` fraction (captured), horizontal whitespace, a percent sign,
horizontal whitespace, end of string.  The captured decimal string is then
converted by `.astype(float)`; we model the decimal value exactly in ℚ. -/

/-- Test for `[^\S\r\n]`: a whitespace character other than carriage return and
newline (ASCII: space, tab, vertical tab, form feed). -/
def isHWS (c : Char) : Bool :=
  c = ' ' || c = '\t' || c = '\x0b' || c = '\x0c'

/-- Numeric value of a digit string. -/
def digitsVal (ds : List Char) : Nat :=
  ds.foldl (fun a c => 10 * a + (c.toNat - '0'.toNat)) 0

/-- The optional `(?:\.\d+)?` part: consume `.` followed by at least one
digit, returning the fraction digits and the remainder; if the dot is not
followed by a digit the regex cannot consume it, so it is left in place. -/
def fracDigitsOf : List Char → List Char × List Char
  | '.' :: r =>
    let fd := r.takeWhile Char.isDigit
    if fd.isEmpty then ([], '.' :: r) else (fd, r.dropWhile Char.isDigit)
  | cs => ([], cs)

/-- Whether the remainder after the number is horizontal whitespace, then a
percent sign, then horizontal whitespace up to the end of the string. -/
def percentTail (cs : List Char) : Bool :=
  match cs.dropWhile isHWS with
  | '%' :: r => (r.dropWhile isHWS).isEmpty
  | _ => false

/-- Full-match of the percentage regex on one cell, returning the numeric
value of the captured decimal (exactly, as the rational
`(intPart·10^k + fracPart) / 10^k` where `k` is the number of fraction
digits) on success. -/
def matchPercent (s : String) : Option ℚ :=
  let cs := s.data.dropWhile isHWS
  let intDigits := cs.takeWhile Char.isDigit
  if intDigits.isEmpty then none
  else
    let after := cs.dropWhile Char.isDigit
    let fd := fracDigitsOf after
    if percentTail fd.2 then
      some (mkRat (digitsVal intDigits * 10 ^ fd.1.length + digitsVal fd.1)
        (10 ^ fd.1.length))
    else none

/-- Embedding of `X.apply(lambda x: x.str.extract(...)[0])` on one column: each cell is
replaced by the captured number, missing (`NaN`) when the cell is null or
does not match. -/
def extractCol (col : List (Option String)) : List (Option ℚ) :=
  col.map (fun c => c.bind matchPercent)

/-- Result of the transform on one column: either left untouched (as
strings) or converted to floats with non-matching cells missing. -/
inductive TransCol
  | untouched (col : List (Option String))
  | converted (col : List (Option ℚ))
  deriving DecidableEq, Repr

/-- Embedding of `PercentageTransformer.transform` restricted to one column.
`parsed_rate_check(x, 0.5)` is `extracted.isna().sum() >= 0.5 * len(x)`
(note: the denominator is the full column length and null source cells count
as unparsed); when it holds the column is kept, otherwise the column is
overwritten by `extracted.astype(float)`. -/
def percentageTransformCol (col : List (Option String)) : TransCol :=
  let extracted := extractCol col
  if (extracted.filter Option.isNone).length * 2 ≥ col.length then
    TransCol.untouched col
  else
    TransCol.converted extracted

/-- Embedding of `PercentageTransformer.transform` over a whole frame: the rate check and
conversion act on each column independently. -/
def percentageTransform (cols : List (List (Option String))) : List TransCol :=
  cols.map percentageTransformCol

/-- The conversion condition as the claim words it: at least half of the
column's NON-NULL cells match the pattern. -/
def specConvertCond (col : List (Option String)) : Bool :=
  let nonNull := col.filterMap id
  decide ((nonNull.filter (fun s => (matchPercent s).isSome)).length * 2
    ≥ nonNull.length)

/-! ## Outcome encoding (`_generate_TYX`, model.py lines 272-299)

Cell values on the extended real line, as `scipy.special.logit` and pandas
`clip` see them.  The finite logit value of a probability strictly between 0
and 1 is a transcendental real; since the claims under verification depend
only on where `logit` is infinite, that finite value is represented by an
arbitrary function parameter `f` threaded through the embedding. -/

inductive EVal
  | negInf
  | fin (x : ℚ)
  | posInf
  | nan
  deriving DecidableEq, Repr

/-- Embedding of `pandas.DataFrame.clip(lower, upper)` on one cell with finite bounds:
-∞ is raised to `lo`, +∞ lowered to `hi`, a finite value clamped into
`[lo, hi]` (for `lo ≤ hi`), and NaN kept. -/
def clipE (lo hi : ℚ) : EVal → EVal
  | .negInf => .fin lo
  | .posInf => .fin hi
  | .fin x => .fin (max lo (min x hi))
  | .nan => .nan

/-- Embedding of `scipy.special.logit` on one probability cell: `logit 0 = -inf`,
`logit 1 = +inf`, NaN outside `[0, 1]`, and the finite log-odds `f p` for
`0 < p < 1`. -/
def logitE (f : ℚ → ℚ) (p : ℚ) : EVal :=
  if p < 0 ∨ 1 < p then .nan
  else if p = 0 then .negInf
  else if p = 1 then .posInf
  else .fin (f p)

/-- Lexicographic (code-point) order on strings, the ascending order numpy
and sklearn use for string categories, as a structurally computable
comparison. -/
def strLeb : List Char → List Char → Bool
  | [], _ => true
  | _ :: _, [] => false
  | a :: as, b :: bs =>
    if a.toNat < b.toNat then true
    else if b.toNat < a.toNat then false
    else strLeb as bs

/-- Embedding of `sklearn.preprocessing.OneHotEncoder.fit_transform` on a single label
column: categories are the distinct labels in ascending (lexicographic)
order, each row becomes its indicator vector of 0.0/1.0 entries. -/
def oneHot (labels : List String) : List (List ℚ) :=
  let cats := labels.dedup.insertionSort (fun a b => strLeb a.data b.data = true)
  labels.map (fun l => cats.map (fun c => if l = c then (1 : ℚ) else 0))

/-- The encoded outcome `Y` of `_generate_TYX`: the raw numeric column for a
numeric/integer target, or the logit-clipped probability matrix for a
categorical target. -/
inductive YEncoded
  | numericY (col : List ℚ)
  | catY (m : List (List EVal))
  deriving DecidableEq, Repr

/-- Shallow embedding of the `Y` computation of `_generate_TYX(self, df,
target_proba)` together with the resulting `self.outcome_featurizer is not
None` flag.  The target column is given as its classified kind plus its
cells (`numCells` carries them when the kind is numeric/integer, `catCells`
when it is categorical).  The source branch is `if self.target in num_cols`
(numeric or integer): then `Y = df[[self.target]]` unchanged and the
featurizer is left `None`; otherwise the featurizer is set, `Y` is
`target_proba` when supplied and the one-hot encoding of the labels
otherwise, and `Y = pd.DataFrame(logit(Y)).clip(LOGIT_MIN_VALUE,
LOGIT_MAX_VALUE)`.  `lo`/`hi` stand for the constants `LOGIT_MIN_VALUE` and
`LOGIT_MAX_VALUE` of `actableai/intervention/config.py` (not under `src/`;
modelled from the spec: "clip to a fixed numeric range (lower and upper
bounds are fixed constants)"). -/
def generate_TYX_Y (f : ℚ → ℚ) (lo hi : ℚ) (kind : ColKind)
    (numCells : List ℚ) (catCells : List String)
    (target_proba : Option (List (List ℚ))) : YEncoded × Bool :=
  if kind = ColKind.numeric ∨ kind = ColKind.integer then
    (YEncoded.numericY numCells, false)
  else
    let Y : List (List ℚ) :=
      match target_proba with
      | some P => P
      | none => oneHot catCells
    (YEncoded.catY (Y.map (fun row => row.map (fun p => clipE lo hi (logitE f p)))),
      true)

/-- The decode step of `predict_effect` (model.py lines 246-252) in the
`self.outcome_featurizer is None` case (the numeric-target case):
`target_intervened = Y + effects.squeeze()` — elementwise addition of the
effect column to the raw outcome column, with no `expit` (inverse-logit)
applied. -/
def predictDecodeNumeric (Y effects : List ℚ) : List ℚ :=
  List.zipWith (· + ·) Y effects

/-! ## Imputation (`preprocess_data`, model.py lines 307-324)

`preprocess_data` partitions the dataframe's columns into numeric/integer
(`num_cols`) and categorical (`cat_cols`) ones, replaces `None` by `NaN`,
then runs `SimpleImputer(strategy="median").fit_transform` over the numeric
block and `SimpleImputer(strategy="most_frequent").fit_transform` over the
categorical block, assigning each result back with `df.loc[:, cols] = ...`.

sklearn's `SimpleImputer` (for the non-constant strategies) computes one
statistic per column and DISCARDS every column whose statistic is undefined
because all its cells are missing; the pandas `.loc` block assignment then
raises a shape-mismatch `ValueError` whenever the imputer returned fewer
columns than it was given. -/

/-- A dataframe as `preprocess_data` sees it, already partitioned by the
feature classifier: the numeric/integer columns (rational cells) and the
categorical columns (string cells), each cell possibly missing. -/
structure ImputeFrame where
  numCols : List (List (Option ℚ))
  catCols : List (List (Option String))
  deriving DecidableEq, Repr

/-- The numpy median of the non-missing cells of a column (`None` when every
cell is missing): sort ascending, take the middle element for an odd count
and the mean of the two middle elements for an even count. -/
def npNanMedian (col : List (Option ℚ)) : Option ℚ :=
  let xs := (col.filterMap id).insertionSort (· ≤ ·)
  if xs.length = 0 then none
  else if xs.length % 2 = 1 then some (xs.getD (xs.length / 2) 0)
  else some ((xs.getD (xs.length / 2 - 1) 0 + xs.getD (xs.length / 2) 0) / 2)

/-- Number of occurrences of a value among the cells. -/
def countOcc (xs : List String) (v : String) : Nat :=
  (xs.filter (· = v)).length

/-- The `SimpleImputer(strategy="most_frequent")` column statistic: the most
frequent non-missing value, the smallest such value on ties (`None` when
every cell is missing). -/
def mostFrequentStat (col : List (Option String)) : Option String :=
  let xs := col.filterMap id
  match xs.dedup.insertionSort (fun a b => strLeb a.data b.data = true) with
  | [] => none
  | c :: cs =>
    some (cs.foldl (fun best v => if countOcc xs v > countOcc xs best then v else best) c)

/-- One numeric column through `SimpleImputer(strategy="median")`: missing
cells filled with the column median, or the column discarded (`none`) when
it was entirely missing. -/
def imputeMedianCol (col : List (Option ℚ)) : Option (List ℚ) :=
  match npNanMedian col with
  | none => none
  | some m => some (col.map (fun c => c.getD m))

/-- One categorical column through
`SimpleImputer(strategy="most_frequent")`. -/
def imputeMostFrequentCol (col : List (Option String)) : Option (List String) :=
  match mostFrequentStat col with
  | none => none
  | some m => some (col.map (fun c => c.getD m))

/-- Result of `preprocess_data`: the imputed frame, or the `ValueError`
raised by the `.loc` block assignment when the imputer discarded an
all-missing column. -/
inductive PreprocessResult
  | frame (numCols : List (List ℚ)) (catCols : List (List String))
  | shapeMismatchError
  deriving DecidableEq, Repr

/-- Shallow embedding of `preprocess_data(self, df)`. -/
def preprocess_data (df : ImputeFrame) : PreprocessResult :=
  let numImp := df.numCols.filterMap imputeMedianCol
  let catImp := df.catCols.filterMap imputeMostFrequentCol
  if numImp.length ≠ df.numCols.length ∨ catImp.length ≠ df.catCols.length then
    PreprocessResult.shapeMismatchError
  else
    PreprocessResult.frame numImp catImp

/-! ## Bayesian regression (`AAIBayesianRegressionTask.run`,
bayesian_regression.py lines 95-374)

The run's control flow relevant to prior validation: copy the dataframe,
sanitize timezones, run the data validator (`BayesianRegressionDataValidator`
is not under `src/`; only its critical/non-critical outcome matters and it
is threaded in as a flag), then iterate over the priors in order — raising
`ValueError` at the first prior whose `control` is not `None` and whose
`degree` is not 1 — and only afterwards expand polynomial features, split,
tune and fit. -/

/-- One prior record as the priors loop reads it: `k["column"]`,
`k["control"]`, `k["degree"]`, `k["value"]`. -/
structure Prior where
  column : String
  control : Option String
  degree : Int
  value : ℚ
  deriving DecidableEq, Repr

/-- The source condition `(k["control"] is not None) and (k["degree"] != 1)`
on which the `ValueError` is raised. -/
def Prior.isBadCatPrior (k : Prior) : Bool :=
  k.control.isSome && k.degree != 1

/-- The label under which a prior's value is stored in `priors_values`. -/
def priorLabel (k : Prior) : String :=
  match k.control with
  | none =>
    if k.degree = 1 then k.column
    else k.column ++ "^" ++ toString k.degree
  | some ctl => k.column ++ "_" ++ ctl ++ "^" ++ toString k.degree

/-- The units of work `run` performs, in source order. -/
inductive BRAction
  | copyDf
  | sanitizeTimezone
  | validateData
  | processPrior (k : Prior)
  | expandPolynomial
  | splitTrainTest
  | tuneHyperparameters
  | fitModel
  deriving DecidableEq, Repr

/-- How the run ends, as far as prior validation is concerned. -/
inductive BROutcome
  | validationFailure
  | valueErrorBadPrior (k : Prior)
  | completed
  deriving DecidableEq, Repr

/-- Shallow embedding of the control flow of
`AAIBayesianRegressionTask.run`: the trace of work performed (in order) and
the outcome.  `criticalValidationFailure` abstracts whether the
data-validation step reports a critical check (in which case the run
returns a FAILURE dictionary before touching the priors).  The priors loop
processes records in order and raises at the first bad one; polynomial
expansion (line 139), the train/test split (line 150), hyperparameter tuning
(line 217) and model fitting (line 218) all come after the loop. -/
def bayesianRegressionRun (criticalValidationFailure : Bool)
    (priors : List Prior) : List BRAction × BROutcome :=
  let pre := [BRAction.copyDf, BRAction.sanitizeTimezone, BRAction.validateData]
  if criticalValidationFailure then
    (pre, BROutcome.validationFailure)
  else
    match priors.find? Prior.isBadCatPrior with
    | some k =>
      (pre ++ (priors.takeWhile (fun p => !p.isBadCatPrior)).map BRAction.processPrior,
        BROutcome.valueErrorBadPrior k)
    | none =>
      (pre ++ priors.map BRAction.processPrior
          ++ [BRAction.expandPolynomial, BRAction.splitTrainTest,
              BRAction.tuneHyperparameters, BRAction.fitModel],
        BROutcome.completed)

/-! ## The body of `predict_effect` (model.py lines 234-270)

`AAIInterventionEffectPredictor.predict_effect` cannot execute as written:
its body contains a `result.join(pd.DataFrame(effects)` call whose closing
parenthesis is missing, which is a Python `SyntaxError` — importing the
module fails, so the method can never be called at all — and, past that, it
reads the bare names `current_intervention_column`,
`new_intervention_column`, `target`, `cate_alpha` and `causal_model`, none
of which is a parameter, local or module-level binding (they exist only as
`self.` attributes), which would raise `NameError` at run time.  We embed
the body as its source text plus a bracket scanner that witnesses the
unbalanced parenthesis, and the name-scope facts as explicit lists. -/

/-- The statement lines of the body of `predict_effect(self, df,
target_proba)`, verbatim (model.py lines 235-270). -/
def predictEffectBody : List String :=
  [ "result = pd.DataFrame()",
    "",
    "if self.causal_model is None:",
    "    raise NotFittedError()",
    "T0, T1, Y, X = self._generate_TYX(df, target_proba)",
    "effects = self.causal_model.effect(",
    "    X.values if X is not None else None,",
    "    T0=df[[current_intervention_column]],  # type: ignore",
    "    T1=df[[new_intervention_column]],  # type: ignore",
    ")",
    "",
    "target_intervened = None",
    "if self.outcome_featurizer is None:",
    "    target_intervened = Y + effects.squeeze()",
    "else:",
    "    target_intervened = self.outcome_featurizer.inverse_transform(",
    "        expit(Y + effects)",
    "    )",
    "",
    "result[target + \"_intervened\"] = target_intervened  # type: ignore",
    "if len(Y.columns) == 1:",
    "    result = result.join(pd.DataFrame(effects)",
    "    df[\"intervention_effect\"] = effects.flatten()  # type: ignore",
    "    if cate_alpha is not None:",
    "        lb, ub = causal_model.effect_interval(",
    "            X.values if X is not None else None,",
    "            T0=df[[current_intervention_column]],  # type: ignore",
    "            T1=df[[new_intervention_column]],  # type: ignore",
    "            alpha=cate_alpha,",
    "        )  # type: ignore",
    "        df[target + \"_intervened_low\"] = df[target] + lb.flatten()",
    "        df[target + \"_intervened_high\"] = df[target] + ub.flatten()",
    "        df[\"intervention_effect_low\"] = lb.flatten()",
    "        df[\"intervention_effect_high\"] = ub.flatten()",
    "",
    "return target_intervened" ]

/-- Net round/square bracket depth of one line of Python source, skipping
double-quoted string literals and `#` comments (the only kinds that occur in
this body).  `q` records whether the scan is inside a string literal. -/
def pyLineDepth (q : Bool) (d : Int) : List Char → Bool × Int
  | [] => (q, d)
  | c :: rest =>
    if q then
      if c = '"' then pyLineDepth false d rest else pyLineDepth true d rest
    else
      if c = '#' then (false, d)
      else if c = '"' then pyLineDepth true d rest
      else if c = '(' ∨ c = '[' then pyLineDepth false (d + 1) rest
      else if c = ')' ∨ c = ']' then pyLineDepth false (d - 1) rest
      else pyLineDepth false d rest

/-- Net bracket depth of a sequence of source lines (each line starts and
ends outside any string literal, as single/double-quoted Python strings do
not span lines).  A Python block parses only if this is zero: every opened
round or square bracket is eventually closed. -/
def pyBodyDepth (lines : List String) : Int :=
  lines.foldl (fun d line => (pyLineDepth false d line.data).2) 0

/-- Whether one list occurs as a prefix of another. -/
def startsWithSeq : List Char → List Char → Bool
  | [], _ => true
  | _ :: _, [] => false
  | a :: as, b :: bs => a = b && startsWithSeq as bs

/-- Whether a pattern occurs as a contiguous substring of a line. -/
def occursInLine (pat : List Char) : List Char → Bool
  | [] => startsWithSeq pat []
  | c :: rest => startsWithSeq pat (c :: rest) || occursInLine pat rest

/-- Whether a pattern occurs in some line of a body of source text. -/
def bodyContains (lines : List String) (pat : String) : Bool :=
  lines.any (fun l => occursInLine pat.data l.data)

/-- Every name available to the body of `predict_effect` as a plain (non
`self.`-qualified) name: its parameters, the local names its statements
assign, the module-level imports/definitions of model.py (lines 1-21), and
the Python builtins it uses. -/
def predictEffectScopeNames : List String :=
  [ "self", "df", "target_proba",
    "result", "T0", "T1", "Y", "X", "effects", "target_intervened", "lb", "ub",
    "logging", "mkdtemp", "Any", "Optional", "List", "Dict", "Tuple", "Union",
    "np", "pd", "NotFittedError", "SimpleImputer", "OneHotEncoder",
    "logit", "expit", "TabularPredictor", "AutoMLPipelineFeatureGenerator",
    "LinearDML", "NonParamDML", "SKLearnMultilabelWrapper",
    "SKLearnTabularWrapper", "LOGIT_MAX_VALUE", "LOGIT_MIN_VALUE",
    "get_type_special_no_ag", "MultilabelPredictor", "DMLFeaturizer",
    "AAIInterventionEffectPredictor", "len", "None" ]

/-- Number of cells of a column that match the percentage pattern (the
claim's vocabulary: matching cells among the non-null ones). -/
def matchCountCol (col : List (Option String)) : Nat :=
  ((col.filterMap id).filter (fun s => (matchPercent s).isSome)).length

/-! ## Theorems -/

/-- The unparsed-cell count of the code's rate check and the matching-cell
count are complementary over the full column length: a cell of `extracted`
is missing exactly when the source cell was null or did not match. -/
theorem extract_isNone_length (col : List (Option String)) :
    ((extractCol col).filter Option.isNone).length + matchCountCol col
      = col.length := by
  induction col with
  | nil => rfl
  | cons c cs ih =>
    cases c with
    | none =>
      simp only [extractCol, matchCountCol, List.map_cons, List.filterMap_cons,
        Option.bind_none] at *
      simpa [List.filter_cons] using by omega
    | some s =>
      cases hms : matchPercent s with
      | none =>
        simp only [extractCol, matchCountCol, List.map_cons, List.filterMap_cons,
          Option.bind_some] at *
        simp [List.filter_cons, hms]
        omega
      | some v =>
        simp only [extractCol, matchCountCol, List.map_cons, List.filterMap_cons,
          Option.bind_some] at *
        simp [List.filter_cons, hms]
        omega

/-- C4 counterexample: the column `["5%", "abc"]` has exactly half of its
non-null cells matching the pattern, so by the claim ("at least half match
⇒ convert") it should be converted; the code's rate check
(`isna().sum() >= 0.5 * len`) keeps it untouched. -/
theorem C4_half_match_counterexample :
    specConvertCond [some "5%", some "abc"] = true
    ∧ percentageTransformCol [some "5%", some "abc"]
        = TransCol.untouched [some "5%", some "abc"] :=
  ⟨rfl, rfl⟩

/-- C4 (amended): a column is converted iff STRICTLY more than half of ALL
its cells (null cells counting as non-matching) match the
leading-number-then-percent pattern; on conversion every matching cell
becomes its numeric value and every other cell becomes missing, and
otherwise the column is left entirely untouched.  The claim's two concrete
examples behave as stated. -/
theorem C4_percentage_threshold (col : List (Option String)) :
    (percentageTransformCol col = TransCol.converted (extractCol col)
      ↔ col.length < 2 * matchCountCol col)
    ∧ (percentageTransformCol col = TransCol.untouched col
      ↔ ¬ col.length < 2 * matchCountCol col)
    ∧ percentageTransformCol [some "5%", some "10%", some "abc"]
        = TransCol.converted [some 5, some 10, none]
    ∧ percentageTransformCol [some "5%", some "abc", some "def"]
        = TransCol.untouched [some "5%", some "abc", some "def"] := by
  have key := extract_isNone_length col
  refine ⟨?_, ?_, rfl, rfl⟩
  · by_cases h : ((extractCol col).filter Option.isNone).length * 2 ≥ col.length
    · simp only [percentageTransformCol, if_pos h]
      constructor
      · intro hc
        exact absurd hc (by simp)
      · omega
    · simp only [percentageTransformCol, if_neg h]
      constructor
      · intro _
        omega
      · intro _
        trivial
  · by_cases h : ((extractCol col).filter Option.isNone).length * 2 ≥ col.length
    · simp only [percentageTransformCol, if_pos h]
      constructor
      · intro _
        omega
      · intro _
        trivial
    · simp only [percentageTransformCol, if_neg h]
      constructor
      · intro hc
        exact absurd hc.symm (by simp)
      · omega

/-- C1: the claim says a categorical treatment with more than two distinct
values selects the linear double-ML estimator even without confounders or a
confidence-interval request.  In the code the estimator choice tests
`T_type == "categorical"`, but the feature classifier returns `"category"`
(it returns one of numeric/integer/category), so that disjunct never holds:
with a 3-level categorical treatment, no common causes and no `cate_alpha`,
`_generate_dml_model` builds `NonParamDML` (with `discrete_treatment=False`)
where the claim requires `LinearDML`. -/
theorem C1_dml_selector_eval :
    specSelectsLinear ⟨none, none, 1⟩ ⟨ColKind.category, ["a", "b", "c"]⟩ = true
    ∧ generate_dml_model ⟨none, none, 1⟩ false ⟨ColKind.category, ["a", "b", "c"]⟩
        = DMLModel.nonParamDML false 1 false
    ∧ (generate_dml_model ⟨none, none, 1⟩ false
        ⟨ColKind.category, ["a", "b", "c"]⟩).isLinear = false := by
  refine ⟨?_, ?_, ?_⟩ <;> decide

set_option maxRecDepth 100000 in
/-- C2: `predict_effect` cannot return a row-indexed result at all: its body
contains the call `result = result.join(pd.DataFrame(effects)` with a
missing closing parenthesis (net bracket depth 1, a Python `SyntaxError`
that makes the module fail to import), and it reads the bare name
`current_intervention_column` (and `target`, `cate_alpha`, `causal_model`),
which is bound neither as a parameter, a local, nor a module-level name, so
even with the parenthesis fixed the effect computation would raise
`NameError` before producing any row of output. -/
theorem C2_predict_effect_body_defective :
    bodyContains predictEffectBody "result = result.join(pd.DataFrame(effects)" = true
    ∧ pyBodyDepth predictEffectBody = 1
    ∧ bodyContains predictEffectBody "T0=df[[current_intervention_column]]" = true
    ∧ "current_intervention_column" ∉ predictEffectScopeNames
    ∧ bodyContains predictEffectBody "result[target + \"_intervened\"]" = true
    ∧ "target" ∉ predictEffectScopeNames := by
  refine ⟨?_, ?_, ?_, ?_, ?_, ?_⟩ <;> decide

set_option maxRecDepth 100000 in
/-- C3: the "not fitted" guard (`if self.causal_model is None: raise
NotFittedError()`) is indeed the first statement group of the body of
`predict_effect`, before any effect computation; but the same body has an
unclosed parenthesis (net bracket depth 1), so defining the method raises
`SyntaxError` when the module is imported and the `NotFittedError` path can
never actually run — calling predict before fit fails with the generic
import-time failure instead of the distinct "not fitted" error. -/
theorem C3_not_fitted_guard_unreachable :
    bodyContains predictEffectBody "if self.causal_model is None:" = true
    ∧ bodyContains predictEffectBody "raise NotFittedError()" = true
    ∧ pyBodyDepth predictEffectBody ≠ 0 := by
  refine ⟨?_, ?_, ?_⟩ <;> decide

/-- C10: for an encoded outcome with at least one column, the final-stage
model of `_generate_model_final` is the multilabel wrapper exactly when the
outcome has one column and the single-output tabular wrapper exactly when it
has more than one — the opposite of `_generate_model_y`, which is tabular
for one column and multilabel otherwise. -/
theorem C10_final_model_inverted_selection (Ycols : List String)
    (h : 1 ≤ Ycols.length) :
    ((generate_model_final Ycols).isMultilabel = true ↔ Ycols.length = 1)
    ∧ ((generate_model_final Ycols).isMultilabel = false ↔ 1 < Ycols.length)
    ∧ ((generate_model_y Ycols).isMultilabel = true ↔ 1 < Ycols.length)
    ∧ (generate_model_y Ycols).isMultilabel
        = !(generate_model_final Ycols).isMultilabel := by
  by_cases h1 : Ycols.length = 1
  · simp [generate_model_final, generate_model_y, WrapperModel.isMultilabel, h1]
  · have h2 : 1 < Ycols.length := by omega
    simp [generate_model_final, generate_model_y, WrapperModel.isMultilabel, h1, h2]

/-- Witness for C10 at concrete outcomes: a one-column outcome gets the
multilabel final model and the tabular outcome model; a two-column outcome
the other way around. -/
theorem C10_final_model_inverted_selection_witness :
    (generate_model_final ["y0"]).isMultilabel = true
    ∧ (generate_model_y ["y0"]).isMultilabel = false
    ∧ (generate_model_final ["y0", "y1"]).isMultilabel = false
    ∧ (generate_model_y ["y0", "y1"]).isMultilabel = true := by
  refine ⟨?_, ?_, ?_, ?_⟩
  · exact (C10_final_model_inverted_selection ["y0"] (by decide)).1.mpr rfl
  · have h := (C10_final_model_inverted_selection ["y0"] (by decide)).2.2.1
    by_contra hc
    exact absurd (h.mp (by simpa using hc)) (by decide)
  · exact (C10_final_model_inverted_selection ["y0", "y1"] (by decide)).2.1.mpr
      (by decide)
  · exact (C10_final_model_inverted_selection ["y0", "y1"] (by decide)).2.2.1.mpr
      (by decide)

/-- C5 counterexample: a categorical treatment column with two rows and two
distinct values gets `holdout_frac = 2/2 = 1.0`.  A holdout fraction of 1
holds out every row, so it is NOT strictly below 1 — hence not bounded above
by any validation-split convention (every such convention is a fraction
strictly less than 1, e.g. the AutoML default cap of 0.2). -/
theorem C5_holdout_reaches_one :
    generate_model_t ⟨ColKind.category, ["a", "b"]⟩
      = ⟨"multiclass", some 1⟩
    ∧ ¬ ((1 : ℚ) < 1) := by
  constructor
  · have h1 : (Column.mk ColKind.category ["a", "b"]).nunique = 2 := by decide
    have h2 : (Column.mk ColKind.category ["a", "b"]).nrows = 2 := rfl
    simp [generate_model_t, h1, h2]
  · exact lt_irrefl 1

/-- C5 (amended): for a categorical treatment column the holdout fraction
equals the number of distinct treatment values divided by the number of
rows, it is monotonically non-decreasing in the number of distinct values
for a fixed row count, and it is bounded above only by 1 (which it attains,
e.g. when every row carries a distinct value) — it is not capped at the
conventional AutoML validation fraction; for a numeric or integer treatment
column no holdout fraction is set and the problem type is regression. -/
theorem C5_holdout_fraction (T T' : Column) :
    (T.kind = ColKind.category →
      generate_model_t T
        = ⟨"multiclass", some ((T.nunique : ℚ) / (T.nrows : ℚ))⟩
      ∧ (T.nunique : ℚ) / (T.nrows : ℚ) ≤ 1)
    ∧ ((T.kind = ColKind.numeric ∨ T.kind = ColKind.integer) →
      generate_model_t T = ⟨"regression", none⟩)
    ∧ (T.nrows = T'.nrows → T.nunique ≤ T'.nunique →
      (T.nunique : ℚ) / (T.nrows : ℚ) ≤ (T'.nunique : ℚ) / (T'.nrows : ℚ)) := by
  refine ⟨fun hk => ⟨?_, ?_⟩, fun hk => ?_, fun hr hu => ?_⟩
  · have : ¬ (T.kind = ColKind.numeric ∨ T.kind = ColKind.integer) := by
      simp [hk]
    simp [generate_model_t, this]
  · have hle : T.nunique ≤ T.nrows := (List.dedup_sublist T.values).length_le
    rcases Nat.eq_zero_or_pos T.nrows with h0 | hpos
    · simp [h0]
    · rw [div_le_one (by exact_mod_cast hpos)]
      exact_mod_cast hle
  · unfold generate_model_t
    rw [if_pos hk]
    rfl
  · rw [hr]
    rcases Nat.eq_zero_or_pos T'.nrows with h0 | hpos
    · simp [h0]
    · rw [div_le_div_iff_of_pos_right (by exact_mod_cast hpos)]
      exact_mod_cast hu

/-- Witness for C5 at a concrete categorical treatment with three rows and
two distinct values: problem type multiclass, holdout fraction 2/3. -/
theorem C5_holdout_fraction_witness :
    generate_model_t ⟨ColKind.category, ["a", "b", "b"]⟩
      = ⟨"multiclass", some ((2 : ℚ) / 3)⟩ := by
  have h := (C5_holdout_fraction ⟨ColKind.category, ["a", "b", "b"]⟩
    ⟨ColKind.category, ["a", "b", "b"]⟩).1 rfl
  have h1 : (Column.mk ColKind.category ["a", "b", "b"]).nunique = 2 := by decide
  have h2 : (Column.mk ColKind.category ["a", "b", "b"]).nrows = 3 := rfl
  rw [h.1, h1, h2]
  norm_num

/-- For `lo ≤ hi`, clipping the logit of any probability in `[0, 1]` gives a
finite value inside `[lo, hi]` — including at probability exactly 0 (where
the logit is -∞, clipped up to `lo`) and exactly 1 (+∞, clipped down to
`hi`). -/
theorem clipE_logitE_mem (f : ℚ → ℚ) {lo hi p : ℚ} (hlh : lo ≤ hi)
    (h0 : 0 ≤ p) (h1 : p ≤ 1) :
    ∃ q, clipE lo hi (logitE f p) = EVal.fin q ∧ lo ≤ q ∧ q ≤ hi := by
  unfold logitE
  have hn : ¬ (p < 0 ∨ 1 < p) := by
    push_neg
    exact ⟨h0, h1⟩
  rw [if_neg hn]
  by_cases hp0 : p = 0
  · rw [if_pos hp0]
    exact ⟨lo, rfl, le_refl _, hlh⟩
  · rw [if_neg hp0]
    by_cases hp1 : p = 1
    · rw [if_pos hp1]
      exact ⟨hi, rfl, hlh, le_refl _⟩
    · rw [if_neg hp1]
      refine ⟨max lo (min (f p) hi), rfl, le_max_left _ _, ?_⟩
      exact max_le hlh (min_le_right _ _)

/-- Every entry of a one-hot encoding is 0 or 1, hence a probability. -/
theorem oneHot_mem {labels : List String} {row : List ℚ} {p : ℚ}
    (hr : row ∈ oneHot labels) (hp : p ∈ row) : 0 ≤ p ∧ p ≤ 1 := by
  unfold oneHot at hr
  simp only [List.mem_map] at hr
  obtain ⟨l, _, rfl⟩ := hr
  simp only [List.mem_map] at hp
  obtain ⟨c, _, rfl⟩ := hp
  by_cases h : l = c <;> simp [h]

/-- C6: for a categorical target every entry of the encoded outcome of
`_generate_TYX` — the clipped logit of the supplied class-probability matrix
or of the one-hot encoding of the labels — is a finite value inside the clip
range `[LOGIT_MIN_VALUE, LOGIT_MAX_VALUE]` (here `lo ≤ hi`, as fixed
constants satisfy), including when an input probability is exactly 0 or 1. -/
theorem C6_logits_clipped (f : ℚ → ℚ) (lo hi : ℚ) (kind : ColKind)
    (numCells : List ℚ) (catCells : List String)
    (target_proba : Option (List (List ℚ))) (m : List (List EVal)) (b : Bool)
    (hlh : lo ≤ hi)
    (hk : kind = ColKind.category)
    (hp : ∀ P, target_proba = some P → ∀ row ∈ P, ∀ p ∈ row, 0 ≤ p ∧ p ≤ 1)
    (hm : generate_TYX_Y f lo hi kind numCells catCells target_proba
      = (YEncoded.catY m, b)) :
    ∀ row ∈ m, ∀ e ∈ row, ∃ q, e = EVal.fin q ∧ lo ≤ q ∧ q ≤ hi := by
  subst hk
  unfold generate_TYX_Y at hm
  rw [if_neg (by simp)] at hm
  cases htp : target_proba with
  | some P =>
    rw [htp] at hm
    simp only [Prod.mk.injEq, YEncoded.catY.injEq] at hm
    obtain ⟨rfl, -⟩ := hm
    intro row hrow e he
    simp only [List.mem_map] at hrow
    obtain ⟨r, hr, rfl⟩ := hrow
    simp only [List.mem_map] at he
    obtain ⟨p, hpm, rfl⟩ := he
    obtain ⟨hp0, hp1⟩ := hp P htp r hr p hpm
    exact clipE_logitE_mem f hlh hp0 hp1
  | none =>
    rw [htp] at hm
    simp only [Prod.mk.injEq, YEncoded.catY.injEq] at hm
    obtain ⟨rfl, -⟩ := hm
    intro row hrow e he
    simp only [List.mem_map] at hrow
    obtain ⟨r, hr, rfl⟩ := hrow
    simp only [List.mem_map] at he
    obtain ⟨p, hpm, rfl⟩ := he
    obtain ⟨hp0, hp1⟩ := oneHot_mem hr hpm
    exact clipE_logitE_mem f hlh hp0 hp1

/-- Witness for C6 at a concrete categorical target whose probability matrix
contains an exact 0 and an exact 1: both encoded entries are finite values
inside the clip range `[-10, 10]`. -/
theorem C6_logits_clipped_witness :
    (∃ q, clipE (-10) 10 (logitE (fun x => x) 0) = EVal.fin q
      ∧ (-10 : ℚ) ≤ q ∧ q ≤ 10)
    ∧ (∃ q, clipE (-10) 10 (logitE (fun x => x) 1) = EVal.fin q
      ∧ (-10 : ℚ) ≤ q ∧ q ≤ 10) := by
  have h := C6_logits_clipped (fun x => x) (-10) 10 ColKind.category [] ["lbl"]
    (some [[0, 1]])
    [[clipE (-10) 10 (logitE (fun x => x) 0),
      clipE (-10) 10 (logitE (fun x => x) 1)]] true
    (by norm_num) rfl ?_ rfl
  · constructor
    · exact h [clipE (-10) 10 (logitE (fun x => x) 0),
        clipE (-10) 10 (logitE (fun x => x) 1)] (by simp)
        (clipE (-10) 10 (logitE (fun x => x) 0)) (by simp)
    · exact h [clipE (-10) 10 (logitE (fun x => x) 0),
        clipE (-10) 10 (logitE (fun x => x) 1)] (by simp)
        (clipE (-10) 10 (logitE (fun x => x) 1)) (by simp)
  · intro P hP
    obtain rfl : [[(0 : ℚ), 1]] = P := by injection hP
    intro row hrow p hpm
    simp only [List.mem_singleton] at hrow
    subst hrow
    simp only [List.mem_cons, List.mem_singleton] at hpm
    rcases hpm with rfl | rfl | h
    · norm_num
    · norm_num
    · simp at h

/-- C7: for a numeric (or integer) target the encoding of `_generate_TYX` is
the identity — the target column is returned unchanged as the single-column
outcome, no logit transform or one-hot encoding is applied and
`outcome_featurizer` stays `None` — and the decode step of `predict_effect`
adds the effect with no inverse-logit, so encode followed by decode (at zero
effect) is the identity on the target values. -/
theorem C7_numeric_target_identity (f : ℚ → ℚ) (lo hi : ℚ) (kind : ColKind)
    (numCells : List ℚ) (catCells : List String)
    (target_proba : Option (List (List ℚ)))
    (hk : kind = ColKind.numeric ∨ kind = ColKind.integer) :
    generate_TYX_Y f lo hi kind numCells catCells target_proba
      = (YEncoded.numericY numCells, false)
    ∧ predictDecodeNumeric numCells (List.replicate numCells.length 0)
        = numCells := by
  constructor
  · unfold generate_TYX_Y
    rw [if_pos hk]
  · unfold predictDecodeNumeric
    induction numCells with
    | nil => rfl
    | cons a l ih => simpa [List.replicate_succ] using ih

/-- Witness for C7 at a concrete numeric target column `[1, 2, 3]`. -/
theorem C7_numeric_target_identity_witness :
    generate_TYX_Y (fun x => x) (-10) 10 ColKind.numeric [1, 2, 3] [] none
      = (YEncoded.numericY [1, 2, 3], false)
    ∧ predictDecodeNumeric [1, 2, 3] (List.replicate 3 0) = [1, 2, 3] := by
  have h := C7_numeric_target_identity (fun x => x) (-10) 10 ColKind.numeric
    [1, 2, 3] [] none (Or.inl rfl)
  exact ⟨h.1, h.2⟩

/-- A column with at least one non-missing cell has a non-empty list of
non-missing values. -/
theorem filterMap_id_ne_nil {α : Type} {col : List (Option α)}
    (h : ∃ c ∈ col, c ≠ none) : col.filterMap id ≠ [] := by
  obtain ⟨c, hc, hne⟩ := h
  obtain ⟨a, rfl⟩ := Option.ne_none_iff_exists'.mp hne
  intro hnil
  have ha : a ∈ col.filterMap id := List.mem_filterMap.mpr ⟨some a, hc, rfl⟩
  rw [hnil] at ha
  exact absurd ha (List.not_mem_nil a)

/-- The median statistic exists for any numeric column that is not entirely
missing. -/
theorem npNanMedian_isSome {col : List (Option ℚ)}
    (h : ∃ c ∈ col, c ≠ none) : (npNanMedian col).isSome := by
  unfold npNanMedian
  have hl : ¬ ((col.filterMap id).insertionSort (· ≤ ·)).length = 0 := by
    rw [List.length_insertionSort, List.length_eq_zero]
    exact filterMap_id_ne_nil h
  rw [if_neg hl]
  split <;> rfl

/-- The most-frequent statistic exists for any categorical column that is
not entirely missing. -/
theorem mostFrequentStat_isSome {col : List (Option String)}
    (h : ∃ c ∈ col, c ≠ none) : (mostFrequentStat col).isSome := by
  simp only [mostFrequentStat]
  split
  next heq =>
    exfalso
    have hlen := congrArg List.length heq
    rw [List.length_insertionSort, List.length_nil] at hlen
    rw [List.length_eq_zero, List.dedup_eq_nil] at hlen
    exact filterMap_id_ne_nil h hlen
  next => rfl

/-- Median imputation keeps a not-all-missing column, filling its missing
cells with the column's median. -/
theorem imputeMedianCol_eq {col : List (Option ℚ)}
    (h : ∃ c ∈ col, c ≠ none) :
    imputeMedianCol col
      = some (col.map (fun c => c.getD ((npNanMedian col).getD 0))) := by
  obtain ⟨m, hm⟩ := Option.isSome_iff_exists.mp (npNanMedian_isSome h)
  unfold imputeMedianCol
  rw [hm]
  simp [hm]

/-- Most-frequent imputation keeps a not-all-missing column, filling its
missing cells with the column's most frequent value. -/
theorem imputeMostFrequentCol_eq {col : List (Option String)}
    (h : ∃ c ∈ col, c ≠ none) :
    imputeMostFrequentCol col
      = some (col.map (fun c => c.getD ((mostFrequentStat col).getD ""))) := by
  obtain ⟨m, hm⟩ := Option.isSome_iff_exists.mp (mostFrequentStat_isSome h)
  unfold imputeMostFrequentCol
  rw [hm]
  simp [hm]

/-- A `filterMap` degenerates to `map` when the partial function succeeds on
every element. -/
theorem filterMap_eq_map_of_forall {α β : Type} {g : α → Option β}
    {h' : α → β} {l : List α} (H : ∀ x ∈ l, g x = some (h' x)) :
    l.filterMap g = l.map h' := by
  induction l with
  | nil => rfl
  | cons a t ih =>
    rw [List.filterMap_cons, H a (List.mem_cons_self a t), List.map_cons,
      ih (fun x hx => H x (List.mem_cons_of_mem a hx))]

/-- Filling the missing cells of a column that has none is the identity (the
filled column, re-wrapped, is the original column). -/
theorem map_getD_of_no_missing {α : Type} {col : List (Option α)} (d : α)
    (h : ∀ c ∈ col, c ≠ none) :
    (col.map (fun c => c.getD d)).map some = col := by
  induction col with
  | nil => rfl
  | cons c t ih =>
    obtain ⟨a, rfl⟩ :=
      Option.ne_none_iff_exists'.mp (h c (List.mem_cons_self c t))
    simp only [List.map_cons, Option.getD_some, List.cons.injEq, true_and]
    exact ih (fun x hx => h x (List.mem_cons_of_mem (some a) hx))

/-- C8 counterexample: a dataframe whose (single) numeric column is entirely
missing.  The claim says such a column is left all-missing; in the code
`SimpleImputer(strategy="median")` discards the all-missing column, so the
`df.loc[:, num_cols] = ...` assignment receives an array one column too
narrow and raises a shape-mismatch `ValueError` — `preprocess_data` returns
no dataframe at all. -/
theorem C8_all_missing_column_errors :
    preprocess_data ⟨[[none, none]], []⟩
      = PreprocessResult.shapeMismatchError := by
  decide

/-- C8 (amended): on a dataframe in which every column has at least one
non-missing value, imputation succeeds and fills each numeric column's
missing cells with that column's median and each categorical column's
missing cells with that column's most frequent value, independently per
column; the output columns carry no missing values (their cells are plain
values), and a column that had no missing values passes through unchanged.
(A dataframe containing an entirely-missing column instead raises a
shape-mismatch error, see the counterexample.) -/
theorem C8_imputation (df : ImputeFrame)
    (hn : ∀ col ∈ df.numCols, ∃ c ∈ col, c ≠ none)
    (hc : ∀ col ∈ df.catCols, ∃ c ∈ col, c ≠ none) :
    preprocess_data df = PreprocessResult.frame
      (df.numCols.map
        (fun col => col.map (fun c => c.getD ((npNanMedian col).getD 0))))
      (df.catCols.map
        (fun col => col.map (fun c => c.getD ((mostFrequentStat col).getD ""))))
    ∧ (∀ col ∈ df.numCols, (∀ c ∈ col, c ≠ none) →
        (col.map (fun c => c.getD ((npNanMedian col).getD 0))).map some = col)
    ∧ (∀ col ∈ df.catCols, (∀ c ∈ col, c ≠ none) →
        (col.map (fun c => c.getD ((mostFrequentStat col).getD ""))).map some
          = col) := by
  have hnum : df.numCols.filterMap imputeMedianCol
      = df.numCols.map
        (fun col => col.map (fun c => c.getD ((npNanMedian col).getD 0))) :=
    filterMap_eq_map_of_forall (fun col hcol => imputeMedianCol_eq (hn col hcol))
  have hcat : df.catCols.filterMap imputeMostFrequentCol
      = df.catCols.map
        (fun col => col.map (fun c => c.getD ((mostFrequentStat col).getD ""))) :=
    filterMap_eq_map_of_forall
      (fun col hcol => imputeMostFrequentCol_eq (hc col hcol))
  refine ⟨?_, ?_, ?_⟩
  · unfold preprocess_data
    rw [hnum, hcat, if_neg (by simp [List.length_map])]
  · intro col _ hall
    exact map_getD_of_no_missing _ hall
  · intro col _ hall
    exact map_getD_of_no_missing _ hall

/-- Witness for C8 at a concrete dataframe: the numeric column
`[1, missing, 3]` is filled with its median 2, the categorical column
`["a", "b", missing, "b"]` with its most frequent value "b". -/
theorem C8_imputation_witness :
    preprocess_data
        ⟨[[some 1, none, some 3]], [[some "a", some "b", none, some "b"]]⟩
      = PreprocessResult.frame
        ([[some (1 : ℚ), none, some 3]].map
          (fun col => col.map (fun c => c.getD ((npNanMedian col).getD 0))))
        ([[some "a", some "b", none, some "b"]].map
          (fun col => col.map (fun c => c.getD ((mostFrequentStat col).getD ""))))
    ∧ preprocess_data
        ⟨[[some 1, none, some 3]], [[some "a", some "b", none, some "b"]]⟩
      = PreprocessResult.frame [[1, 2, 3]] [["a", "b", "b", "b"]] := by
  have h := (C8_imputation
    ⟨[[some 1, none, some 3]], [[some "a", some "b", none, some "b"]]⟩
    (by intro col hcol
        simp only [ImputeFrame.numCols, List.mem_singleton] at hcol
        subst hcol
        exact ⟨some 1, by simp, by simp⟩)
    (by intro col hcol
        simp only [ImputeFrame.catCols, List.mem_singleton] at hcol
        subst hcol
        exact ⟨some "a", by simp, by simp⟩)).1
  refine ⟨h, h.trans ?_⟩
  have hmed : npNanMedian [some (1 : ℚ), none, some 3] = some 2 := by
    unfold npNanMedian
    norm_num [List.filterMap, List.insertionSort, List.orderedInsert]
  have hmf : mostFrequentStat [some "a", some "b", none, some "b"]
      = some "b" := by decide
  simp [hmed, hmf]

/-- C9: a Bayesian-regression run whose priors contain a categorical-column
prior (`control` not `None`) with polynomial degree other than 1 raises an
explicit `ValueError` in the priors loop — provided the preceding data
validation reported no critical failure — and performs no polynomial feature
expansion, no hyperparameter tuning and no model fitting; the trace up to
the raise is exactly the preceding work (copy, sanitize, validate, the
well-formed priors before the offending one), unchanged on the error path. -/
theorem C9_bad_prior_fails_fast (priors : List Prior) (k : Prior)
    (hk : k ∈ priors) (hctl : k.control.isSome) (hdeg : k.degree ≠ 1) :
    (∃ k_bad, (bayesianRegressionRun false priors).2
        = BROutcome.valueErrorBadPrior k_bad
      ∧ k_bad.control.isSome ∧ k_bad.degree ≠ 1)
    ∧ (bayesianRegressionRun false priors).1
        = [BRAction.copyDf, BRAction.sanitizeTimezone, BRAction.validateData]
          ++ (priors.takeWhile (fun p => !p.isBadCatPrior)).map
              BRAction.processPrior
    ∧ BRAction.expandPolynomial ∉ (bayesianRegressionRun false priors).1
    ∧ BRAction.tuneHyperparameters ∉ (bayesianRegressionRun false priors).1
    ∧ BRAction.fitModel ∉ (bayesianRegressionRun false priors).1 := by
  have hbad : k.isBadCatPrior = true := by
    simp [Prior.isBadCatPrior, hctl, hdeg]
  have hfind : (priors.find? Prior.isBadCatPrior).isSome :=
    List.find?_isSome.mpr ⟨k, hk, hbad⟩
  obtain ⟨k_bad, hkb⟩ := Option.isSome_iff_exists.mp hfind
  have hkbad : Prior.isBadCatPrior k_bad = true := List.find?_some hkb
  have hctl_deg : k_bad.control.isSome ∧ k_bad.degree ≠ 1 := by
    simpa [Prior.isBadCatPrior] using hkbad
  unfold bayesianRegressionRun
  rw [if_neg (by simp), hkb]
  refine ⟨⟨k_bad, rfl, hctl_deg.1, hctl_deg.2⟩, rfl, ?_, ?_, ?_⟩
  all_goals
    simp [List.mem_append, List.mem_map]

/-- Witness for C9 at a concrete bad prior (`control = "ctl"`, degree 2):
the run raises the `ValueError` and never reaches fitting. -/
theorem C9_bad_prior_fails_fast_witness :
    (bayesianRegressionRun false [⟨"x", some "ctl", 2, 0⟩]).2
      = BROutcome.valueErrorBadPrior ⟨"x", some "ctl", 2, 0⟩
    ∧ BRAction.fitModel ∉ (bayesianRegressionRun false [⟨"x", some "ctl", 2, 0⟩]).1 := by
  have h := C9_bad_prior_fails_fast [⟨"x", some "ctl", 2, 0⟩]
    ⟨"x", some "ctl", 2, 0⟩ (List.mem_singleton.mpr rfl) rfl (by decide)
  exact ⟨by decide, h.2.2.2.2⟩

end ActableAI
